import Mathlib

/-
Shallow embedding of the QNN op-builder framework of the onnxruntime QNN
execution provider, covering:

  - src/onnxruntime/core/providers/qnn/builder/opbuilder/base_op_builder.cc
  - src/onnxruntime/core/providers/qnn/builder/opbuilder/argmax_min_op_builder.cc
  - src/onnxruntime/core/providers/qnn/builder/qnn_utils.cc

Machine integers are modelled as Nat or Int with explicit reduction
modulo two to the width where the source casts matter.  Fallible code is
modelled with Option and Except.  Parts of the repository that the above
files call into but whose implementation is not part of the sample
(QnnModelWrapper, NodeAttrHelper, GetQnnDataType) are modelled from the
specification; each such definition carries a doc comment saying so.
-/

namespace OnnxRuntimeQnn

/-- The accelerator element type enum Qnn_DataType_t. The `unknown` constructor
carries an arbitrary integer code standing for any value outside the set of
named enumerators that the translated code mentions. -/
inductive QnnDataType : Type where
  | INT_8
  | INT_16
  | INT_32
  | INT_64
  | UINT_8
  | UINT_16
  | UINT_32
  | UINT_64
  | FLOAT_16
  | FLOAT_32
  | BOOL_8
  | SFIXED_POINT_8
  | SFIXED_POINT_16
  | SFIXED_POINT_32
  | UFIXED_POINT_8
  | UFIXED_POINT_16
  | UFIXED_POINT_32
  | unknown (code : Nat)
  deriving DecidableEq, Repr

/-- True exactly on the named Qnn_DataType_t enumerators used by the code. -/
def QnnDataType.isKnown : QnnDataType → Bool
  | .unknown _ => false
  | _ => true

/-- The tensor role enum Qnn_TensorType_t. -/
inductive QnnTensorType : Type where
  | APP_WRITE
  | APP_READ
  | APP_READWRITE
  | NATIVE
  | STATIC
  | NULL
  | unknown (code : Nat)
  deriving DecidableEq, Repr

/-- The Qnn_Definition_t enum. -/
inductive QnnDefinition : Type where
  | IMPL_GENERATED
  | DEFINED
  | UNDEFINED
  | unknown (code : Nat)
  deriving DecidableEq, Repr

/-- The Qnn_QuantizationEncoding_t enum. -/
inductive QnnQuantizationEncoding : Type where
  | SCALE_OFFSET
  | AXIS_SCALE_OFFSET
  | unknown (code : Nat)
  deriving DecidableEq, Repr

/-- The Qnn_ParamType_t enum. -/
inductive QnnParamType : Type where
  | SCALAR
  | TENSOR
  | unknown (code : Nat)
  deriving DecidableEq, Repr

/-- The Qnn_TensorMemType_t enum. -/
inductive QnnTensorMemType : Type where
  | RAW
  | MEMHANDLE
  | unknown (code : Nat)
  deriving DecidableEq, Repr

/- ONNX TensorProto element type codes (numeric values of the
ONNX_NAMESPACE::TensorProto_DataType enum from onnx.proto). -/

def TensorProto_DataType_FLOAT : Int := 1
def TensorProto_DataType_UINT8 : Int := 2
def TensorProto_DataType_INT8 : Int := 3
def TensorProto_DataType_UINT16 : Int := 4
def TensorProto_DataType_INT16 : Int := 5
def TensorProto_DataType_INT32 : Int := 6
def TensorProto_DataType_INT64 : Int := 7
def TensorProto_DataType_BOOL : Int := 9
def TensorProto_DataType_FLOAT16 : Int := 10
def TensorProto_DataType_UINT32 : Int := 12
def TensorProto_DataType_UINT64 : Int := 13

/-- The plain (non-quantized) lookup table of
BaseOpBuilder::OnnxDataTypeToQnnDataType, entries in source order. -/
def onnx_to_qnn_data_type : List (Int × QnnDataType) :=
  [(TensorProto_DataType_INT8, .INT_8),
   (TensorProto_DataType_INT16, .INT_16),
   (TensorProto_DataType_INT32, .INT_32),
   (TensorProto_DataType_INT64, .INT_64),
   (TensorProto_DataType_UINT8, .UINT_8),
   (TensorProto_DataType_UINT16, .UINT_16),
   (TensorProto_DataType_UINT32, .UINT_32),
   (TensorProto_DataType_UINT64, .UINT_64),
   (TensorProto_DataType_FLOAT16, .FLOAT_16),
   (TensorProto_DataType_FLOAT, .FLOAT_32),
   (TensorProto_DataType_BOOL, .BOOL_8)]

/-- The quantized lookup table of BaseOpBuilder::OnnxDataTypeToQnnDataType,
entries in source order. -/
def onnx_to_qnn_data_type_quantized : List (Int × QnnDataType) :=
  [(TensorProto_DataType_INT8, .SFIXED_POINT_8),
   (TensorProto_DataType_INT16, .SFIXED_POINT_16),
   (TensorProto_DataType_INT32, .SFIXED_POINT_32),
   (TensorProto_DataType_INT64, .INT_64),
   (TensorProto_DataType_UINT8, .UFIXED_POINT_8),
   (TensorProto_DataType_UINT16, .UFIXED_POINT_16),
   (TensorProto_DataType_UINT32, .UFIXED_POINT_32),
   (TensorProto_DataType_UINT64, .UINT_64),
   (TensorProto_DataType_FLOAT16, .FLOAT_16),
   (TensorProto_DataType_FLOAT, .FLOAT_32),
   (TensorProto_DataType_BOOL, .BOOL_8)]

/-- The do_type_mapping lambda inside OnnxDataTypeToQnnDataType: an
unordered_map find that yields the mapped value, or a not-supported miss
(modelled as none, matching the `return false` with the out parameter left
unwritten). -/
def do_type_mapping (mapping_table : List (Int × QnnDataType))
    (onnx_data_type : Int) : Option QnnDataType :=
  mapping_table.lookup onnx_data_type

/-- BaseOpBuilder::OnnxDataTypeToQnnDataType: selects the quantized or the
plain table by the is_quantized flag and performs the lookup. -/
def OnnxDataTypeToQnnDataType (onnx_data_type : Int) (is_quantized : Bool) :
    Option QnnDataType :=
  if is_quantized then
    do_type_mapping onnx_to_qnn_data_type_quantized onnx_data_type
  else
    do_type_mapping onnx_to_qnn_data_type onnx_data_type

/-- utils::GetDataSize: 0 for an empty dimension list, otherwise
std::accumulate over the dims with a uint32_t initial value 1 and
multiplies of uint32_t, i.e. a left fold with multiplication reduced
modulo two to the 32 at every step; the uint32_t result is then widened to
the int64_t return type (value preserving, modelled by the coercion of the
Nat result into Int). -/
def GetDataSize (dims : List Nat) : Int :=
  if dims.length = 0 then
    0
  else
    ((dims.foldl (fun acc d => acc * d % 2 ^ 32) 1 : Nat) : Int)

/-- A Qnn_Scalar_t value: the active union member is selected by dataType;
the numeric payload of whichever member is active is modelled as a single
integer (the float payload is abstracted as its integer code, since the
translated code only moves it around and prints it). -/
structure QnnScalar where
  dataType : QnnDataType
  value : Int
  deriving DecidableEq, Repr

/-- The stream output operator for Qnn_Scalar_t in qnn_utils.cc: switches on
the scalar data type; known cases append a rendering of the active union
member (or an explicit not-supported text, or nothing at all for
FLOAT_16), while the default case is ORT_THROW, modelled as an error
result. -/
def formatQnnScalar (scalar : QnnScalar) : Except String String :=
  match scalar.dataType with
  | .INT_8 => .ok (toString scalar.value)
  | .INT_16 => .ok (toString scalar.value)
  | .INT_32 => .ok (toString scalar.value)
  | .INT_64 => .ok "int64_t is not supported"
  | .UINT_8 => .ok (toString scalar.value)
  | .UINT_16 => .ok (toString scalar.value)
  | .UINT_32 => .ok (toString scalar.value)
  | .UINT_64 => .ok "uint64_t is not supported"
  | .FLOAT_16 => .ok ""
  | .FLOAT_32 => .ok (toString scalar.value)
  | .SFIXED_POINT_8 => .ok "usigned fixedpoint data is not supported"
  | .SFIXED_POINT_16 => .ok "usigned fixedpoint data is not supported"
  | .SFIXED_POINT_32 => .ok "usigned fixedpoint data is not supported"
  | .UFIXED_POINT_8 => .ok "usigned fixedpoint data is not supported"
  | .UFIXED_POINT_16 => .ok "usigned fixedpoint data is not supported"
  | .UFIXED_POINT_32 => .ok "usigned fixedpoint data is not supported"
  | .BOOL_8 => .ok (toString scalar.value)
  | .unknown _ => .error "Unknown Qnn Data type"

/-- The stream output operator for Qnn_DataType_t in qnn_utils.cc: known
cases append the enumerator name, the default case is ORT_THROW, modelled
as an error result. -/
def formatQnnDataType (data_type : QnnDataType) : Except String String :=
  match data_type with
  | .INT_8 => .ok "QNN_DATATYPE_INT_8"
  | .INT_16 => .ok "QNN_DATATYPE_INT_16"
  | .INT_32 => .ok "QNN_DATATYPE_INT_32"
  | .INT_64 => .ok "QNN_DATATYPE_INT_64"
  | .UINT_8 => .ok "QNN_DATATYPE_UINT_8"
  | .UINT_16 => .ok "QNN_DATATYPE_UINT_16"
  | .UINT_32 => .ok "QNN_DATATYPE_UINT_32"
  | .UINT_64 => .ok "QNN_DATATYPE_UINT_64"
  | .FLOAT_16 => .ok "QNN_DATATYPE_FLOAT_16"
  | .FLOAT_32 => .ok "QNN_DATATYPE_FLOAT_32"
  | .SFIXED_POINT_8 => .ok "QNN_DATATYPE_SFIXED_POINT_8"
  | .SFIXED_POINT_16 => .ok "QNN_DATATYPE_SFIXED_POINT_16"
  | .SFIXED_POINT_32 => .ok "QNN_DATATYPE_SFIXED_POINT_32"
  | .UFIXED_POINT_8 => .ok "QNN_DATATYPE_UFIXED_POINT_8"
  | .UFIXED_POINT_16 => .ok "QNN_DATATYPE_UFIXED_POINT_16"
  | .UFIXED_POINT_32 => .ok "QNN_DATATYPE_UFIXED_POINT_32"
  | .BOOL_8 => .ok "QNN_DATATYPE_BOOL_8"
  | .unknown _ => .error "Unknown Qnn Data type"

/-- The stream output operator for Qnn_Definition_t: every case returns
normally; the default case prints a fallback text. -/
def formatQnnDefinition (definition : QnnDefinition) : String :=
  match definition with
  | .IMPL_GENERATED => "QNN_DEFINITION_IMPL_GENERATED"
  | .DEFINED => "QNN_DEFINITION_DEFINED"
  | .UNDEFINED => "QNN_DEFINITION_UNDEFINED"
  | .unknown _ => "Undefined"

/-- The stream output operator for Qnn_QuantizationEncoding_t: every case
returns normally; the default case prints a fallback text. -/
def formatQnnQuantizationEncoding (encoding : QnnQuantizationEncoding) : String :=
  match encoding with
  | .SCALE_OFFSET => "QNN_QUANTIZATION_ENCODING_SCALE_OFFSET"
  | .AXIS_SCALE_OFFSET => "QNN_QUANTIZATION_ENCODING_AXIS_SCALE_OFFSET"
  | .unknown _ => "Uknown quantization encoding"

/-- The stream output operator for Qnn_TensorType_t: every case returns
normally; the default case prints a fallback text. -/
def formatQnnTensorType (tensor_type : QnnTensorType) : String :=
  match tensor_type with
  | .APP_WRITE => "QNN_TENSOR_TYPE_APP_WRITE"
  | .APP_READ => "QNN_TENSOR_TYPE_APP_READ"
  | .APP_READWRITE => "QNN_TENSOR_TYPE_APP_READWRITE"
  | .NATIVE => "QNN_TENSOR_TYPE_NATIVE"
  | .STATIC => "QNN_TENSOR_TYPE_STATIC"
  | .NULL => "QNN_TENSOR_TYPE_NULL"
  | .unknown _ => "Unsupported type"

/-- The stream output operator for Qnn_TensorMemType_t: every case returns
normally; the default case prints a fallback text. -/
def formatQnnTensorMemType (mem_type : QnnTensorMemType) : String :=
  match mem_type with
  | .RAW => "QNN_TENSORMEMTYPE_RAW"
  | .MEMHANDLE => "QNN_TENSORMEMTYPE_MEMHANDLE"
  | .unknown _ => "Unsupported mem type"

/-- The stream output operator for Qnn_ParamType_t: every case returns
normally; the default case prints a fallback text. -/
def formatQnnParamType (param_type : QnnParamType) : String :=
  match param_type with
  | .SCALAR => "QNN_PARAMTYPE_SCALAR"
  | .TENSOR => "QNN_PARAMTYPE_TENSOR"
  | .unknown _ => "Unknown type"

/-- A scale and offset pair of a scale-offset quantization encoding (the
float scale is abstracted as an integer-coded value; the translated code
only passes it through, never computes with it). -/
structure ScaleOffset where
  scale : Int
  offset : Int
  deriving DecidableEq, Repr

/-- Default-initialized quantize params (QNN_QUANTIZE_PARAMS_INIT followed
by InitializeQuantizeParam). -/
def initQuantizeParam : ScaleOffset := ⟨0, 0⟩

/-- The quantization-parameter annotation of one node-unit input or output,
as seen through QnnModelWrapper::ProcessQuantizationParameter: either no
annotation (defaults kept), an annotation the wrapper cannot resolve
(the call fails), or one resolving to a concrete scale and offset. -/
inductive QuantParamState : Type where
  | absent
  | unresolvable
  | resolved (scale : Int) (offset : Int)
  deriving DecidableEq, Repr

/-- One input or output of a NodeUnit: the node_arg name, the element type
code of its type proto (none when the proto is missing), and its optional
quantization annotation. -/
structure NodeUnitIODef where
  name : String
  type_proto : Option Int
  quant_param : QuantParamState
  deriving DecidableEq, Repr

/-- A NodeUnit (consumed read-only): op type, stable name, ordered inputs
and outputs, and the integer-valued attributes. -/
structure NodeUnit where
  name : String
  op_type : String
  inputs : List NodeUnitIODef
  outputs : List NodeUnitIODef
  attributes : List (String × Int)
  deriving DecidableEq, Repr

/-- Modelled from the spec: NodeAttrHelper attribute accessor with a typed
default — yields the attribute value when the node carries the attribute,
and the caller-supplied default otherwise. -/
def NodeAttrHelper.Get (node_unit : NodeUnit) (key : String)
    (default_value : Int) : Int :=
  match node_unit.attributes.lookup key with
  | some v => v
  | none => default_value

/-- A QnnTensorWrapper: tensor name, role, data format, element type,
quantize params, dimension list (uint32 values) and the unpacked constant
payload bytes (empty for non-constant tensors). -/
structure QnnTensorWrapper where
  name : String
  tensor_type : QnnTensorType
  data_format : Nat
  data_type : QnnDataType
  quantize_param : ScaleOffset
  dims : List Nat
  client_data : List Nat
  deriving DecidableEq, Repr

/-- A QnnParamWrapper holding a named scalar parameter attached to one
operator. -/
structure QnnParamWrapper where
  name : String
  scalar : QnnScalar
  deriving DecidableEq, Repr

/-- A completed operator descriptor (the arguments of
QnnModelWrapper::AddNode): node name, package name, QNN op type, ordered
params, ordered input tensor names and ordered output tensor wrappers. -/
structure QnnOpWrapper where
  name : String
  package_name : String
  qnn_op_type : String
  params : List QnnParamWrapper
  input_names : List String
  output_tensors : List QnnTensorWrapper
  deriving DecidableEq, Repr

/-- Modelled from the spec: the read-only portable-graph context a
QnnModelWrapper answers queries against — initializer lookup with raw
data, the declared-output name set of the accepted subgraph, and the
shape accessor for node args. -/
structure GraphInfo where
  initializer_data : List (String × List Nat)
  graph_outputs : List String
  shapes : List (String × List Nat)
  deriving DecidableEq, Repr

/-- Modelled from the spec: the Target-Graph Accumulator state of a
QnnModelWrapper — the tensor registry (name keyed, names unique) and the
ordered operator list — together with the read-only graph context. -/
structure QnnModelWrapper where
  graph_info : GraphInfo
  model_tensors_map : List (String × QnnTensorWrapper)
  qnn_ops : List QnnOpWrapper
  deriving DecidableEq, Repr

/-- Modelled from the spec: QnnContainsTensor — whether the tensor registry
already holds a descriptor under the given name. -/
def QnnModelWrapper.QnnContainsTensor (w : QnnModelWrapper)
    (name : String) : Bool :=
  (w.model_tensors_map.lookup name).isSome

/-- Modelled from the spec: IsInitializerInput — whether the name denotes a
portable-graph initializer. -/
def QnnModelWrapper.IsInitializerInput (w : QnnModelWrapper)
    (name : String) : Bool :=
  (w.graph_info.initializer_data.lookup name).isSome

/-- Modelled from the spec: initializer lookup plus UnpackInitializerData,
producing the raw constant bytes of the named initializer. -/
def QnnModelWrapper.UnpackedInitializer (w : QnnModelWrapper)
    (name : String) : List Nat :=
  (w.graph_info.initializer_data.lookup name).getD []

/-- Modelled from the spec: IsGraphOutput — whether the name is a declared
graph output of the accepted subgraph. -/
def QnnModelWrapper.IsGraphOutput (w : QnnModelWrapper)
    (name : String) : Bool :=
  w.graph_info.graph_outputs.contains name

/-- Modelled from the spec: GetOnnxShape — the declared shape of the named
node arg, or a failure when no shape is available. -/
def QnnModelWrapper.GetOnnxShape (w : QnnModelWrapper)
    (name : String) : Option (List Nat) :=
  w.graph_info.shapes.lookup name

/-- Modelled from the spec: ProcessQuantizationParameter — resolve the
quantization annotation of one input or output into concrete scale and
offset fields, keeping the initialized defaults when no annotation is
present and failing when the annotation cannot be resolved. -/
def ProcessQuantizationParameter (qp : QuantParamState) :
    Option ScaleOffset :=
  match qp with
  | .absent => some initQuantizeParam
  | .unresolvable => none
  | .resolved s o => some ⟨s, o⟩

/-- Modelled from the spec: AddTensor — idempotent when the name is already
registered (the registry is left unchanged and the call succeeds),
otherwise the descriptor is inserted under the name. The malformed-
descriptor rejection of the spec never fires on descriptors this
development builds, so the Bool result is paired with the new state. -/
def QnnModelWrapper.AddTensor (w : QnnModelWrapper) (name : String)
    (tensor_wrapper : QnnTensorWrapper) : Bool × QnnModelWrapper :=
  if (w.model_tensors_map.lookup name).isSome then
    (true, w)
  else
    (true, { w with model_tensors_map := (name, tensor_wrapper) :: w.model_tensors_map })

/-- Modelled from the spec: AddNode — fails when a referenced input tensor
name is absent from the registry; in validate-only mode nothing is
persisted, otherwise the operator descriptor is appended to the ordered
operator list. -/
def QnnModelWrapper.AddNode (w : QnnModelWrapper) (op : QnnOpWrapper)
    (do_op_validation : Bool) : Bool × QnnModelWrapper :=
  if op.input_names.all (fun n => w.QnnContainsTensor n) then
    if do_op_validation then
      (true, w)
    else
      (true, { w with qnn_ops := w.qnn_ops ++ [op] })
  else
    (false, w)

/-- Modelled from the spec: GetQnnDataType (declared in base_op_builder.h) —
resolve the accelerator element type of a type proto, quantized-aware; a
missing proto or a mapping-table miss is an unsupported-type failure. -/
def GetQnnDataType (is_quantized_model : Bool) (type_proto : Option Int) :
    Except String QnnDataType :=
  match type_proto with
  | none => .error "The tensor doesnt have elem_type."
  | some onnx_data_type =>
    match OnnxDataTypeToQnnDataType onnx_data_type is_quantized_model with
    | none => .error "Onnx data type not supported by Qnn."
    | some qnn_data_type => .ok qnn_data_type

/-- Modelled from the spec: GetNodeName (declared in base_op_builder.h) —
the stable name of the node unit. -/
def GetNodeName (node_unit : NodeUnit) : String :=
  node_unit.name

/-- Modelled from the spec: GetQnnOpType (declared in base_op_builder.h) —
the accelerator op-type string of a portable op type; the claims never
inspect the result, so the name map is abstracted as the identity. -/
def GetQnnOpType (onnx_op_type : String) : String :=
  onnx_op_type

/-- Modelled from the spec: the qnn_def::package_name constant. -/
def package_name : String := "qti.aisw"

/-- Modelled from the spec: the qnn_def::axis parameter name constant. -/
def axis_name : String := "axis"

/-- Modelled from the spec: the qnn_def::keep_dims parameter name
constant. -/
def keep_dims_name : String := "keep_dims"

/-- The static_cast of a size_t value to int32_t: reduce modulo two to the
32 and reinterpret as a two-complement signed value. -/
def int32_of_size (n : Nat) : Int :=
  if n % 2 ^ 32 < 2 ^ 31 then ((n % 2 ^ 32 : Nat) : Int)
  else ((n % 2 ^ 32 : Nat) : Int) - 2 ^ 32

/-- The static_cast of an int32_t value to uint32_t: reduce modulo two to
the 32 into the range [0, 2 ^ 32). -/
def uint32_of_int32 (a : Int) : Int :=
  a % 2 ^ 32

/-- The loop body of BaseOpBuilder::ProcessInputs over the ordered node-unit
inputs, threading the accumulator state and the ordered input-name list.
For an input whose tensor name is already registered the name is appended
and the rest is skipped; otherwise the element type, shape and
quantization params are resolved, an initializer input additionally has
its raw data unpacked, and the built descriptor is registered with role
STATIC for an initializer input and APP_WRITE otherwise. -/
def processInputsLoop (is_quantized_model : Bool) (w : QnnModelWrapper)
    (input_names : List String) :
    List NodeUnitIODef → Except String (QnnModelWrapper × List String)
  | [] => .ok (w, input_names)
  | input :: rest =>
    let input_name := input.name
    if w.QnnContainsTensor input_name then
      processInputsLoop is_quantized_model w (input_names ++ [input_name]) rest
    else
      match GetQnnDataType is_quantized_model input.type_proto with
      | .error e => .error e
      | .ok qnn_data_type =>
        match w.GetOnnxShape input_name with
        | none => .error "Cannot get shape"
        | some input_shape =>
          match ProcessQuantizationParameter input.quant_param with
          | none => .error "Cannot get quantization parameter"
          | some quantize_param =>
            let is_initializer_input := w.IsInitializerInput input_name
            let unpacked_tensor :=
              if is_initializer_input then w.UnpackedInitializer input_name else []
            let tensor_type :=
              if is_initializer_input then QnnTensorType.STATIC
              else QnnTensorType.APP_WRITE
            let data_format : Nat := 0
            let input_tensorwrapper : QnnTensorWrapper :=
              ⟨input_name, tensor_type, data_format, qnn_data_type,
                quantize_param, input_shape, unpacked_tensor⟩
            match w.AddTensor input_name input_tensorwrapper with
            | (false, _) => .error "Failed to add tensor."
            | (true, w2) =>
              processInputsLoop is_quantized_model w2 (input_names ++ [input_name]) rest

/-- BaseOpBuilder::ProcessInputs: runs the input loop starting from an empty
ordered input-name list (the do_op_validation flag is accepted and unused,
as in the source). -/
def ProcessInputs (w : QnnModelWrapper) (node_unit : NodeUnit)
    (is_quantized_model : Bool) (do_op_validation : Bool) :
    Except String (QnnModelWrapper × List String) :=
  processInputsLoop is_quantized_model w [] node_unit.inputs

/-- The loop body of BaseOpBuilder::ProcessOutputs over the node-unit
outputs retained by the output-count bound: resolves element type,
quantization params and shape of each output and builds its descriptor
with role APP_READ when the name is a declared graph output and NATIVE
otherwise. -/
def processOutputsLoop (w : QnnModelWrapper) (is_quantized_model : Bool) :
    List NodeUnitIODef → Except String (List QnnTensorWrapper)
  | [] => .ok []
  | output :: rest =>
    let output_name := output.name
    match GetQnnDataType is_quantized_model output.type_proto with
    | .error e => .error e
    | .ok qnn_data_type =>
      match ProcessQuantizationParameter output.quant_param with
      | none => .error "Cannot get quantization parameter"
      | some quantize_param =>
        match w.GetOnnxShape output_name with
        | none => .error "Cannot get shape"
        | some output_shape =>
          let is_graph_output := w.IsGraphOutput output_name
          let tensor_type :=
            if is_graph_output then QnnTensorType.APP_READ
            else QnnTensorType.NATIVE
          let data_format : Nat := 0
          let qnn_output : QnnTensorWrapper :=
            ⟨output_name, tensor_type, data_format, qnn_data_type,
              quantize_param, output_shape, []⟩
          match processOutputsLoop w is_quantized_model rest with
          | .error e => .error e
          | .ok qnn_outputs => .ok (qnn_output :: qnn_outputs)

/-- BaseOpBuilder::ProcessOutputs: builds the output descriptors of the
first outputs up to the output_count bound (the builders output_count_
member, passed explicitly here) and appends the operator descriptor via
AddNode. -/
def ProcessOutputs (w : QnnModelWrapper) (node_unit : NodeUnit)
    (input_names : List String) (node_params : List QnnParamWrapper)
    (is_quantized_model : Bool) (do_op_validation : Bool)
    (output_count : Nat) : Except String QnnModelWrapper :=
  match processOutputsLoop w is_quantized_model (node_unit.outputs.take output_count) with
  | .error e => .error e
  | .ok qnn_outputs =>
    match w.AddNode
        ⟨GetNodeName node_unit, package_name, GetQnnOpType node_unit.op_type,
          node_params, input_names, qnn_outputs⟩ do_op_validation with
    | (false, _) => .error "Failed to add node."
    | (true, w2) => .ok w2

/-- BaseOpBuilder::ProcessAttributesAndOutputs (the default, non-overridden
stage): succeeds trivially when fewer than one input name was resolved,
otherwise delegates to ProcessOutputs with an empty parameter list. -/
def ProcessAttributesAndOutputs (w : QnnModelWrapper) (node_unit : NodeUnit)
    (input_names : List String) (is_quantized_model : Bool)
    (do_op_validation : Bool) (output_count : Nat) :
    Except String QnnModelWrapper :=
  if input_names.length < 1 then
    .ok w
  else
    ProcessOutputs w node_unit input_names [] is_quantized_model
      do_op_validation output_count

/-- BaseOpBuilder::AddToModelBuilder with the default stage 2: ProcessInputs
followed by ProcessAttributesAndOutputs, errors propagated. -/
def AddToModelBuilder (w : QnnModelWrapper) (node_unit : NodeUnit)
    (is_quantized_model : Bool) (do_op_validation : Bool)
    (output_count : Nat) : Except String QnnModelWrapper :=
  match ProcessInputs w node_unit is_quantized_model do_op_validation with
  | .error e => .error e
  | .ok (w2, input_names) =>
    ProcessAttributesAndOutputs w2 node_unit input_names is_quantized_model
      do_op_validation output_count

/-- BaseOpBuilder::ProcessAxisAttribute: reads the shape of the first input
(the source indexes inputs[0]; an absent first input is modelled as the
shape failure), takes the rank as the int32 cast of the shape size, reads
the axis attribute with the caller-supplied default, adds the rank when
the value is negative, enforces the normalized value into [0, rank-1]
(ORT_ENFORCE modelled as an error result), and appends an axis parameter
that is a signed 32-bit scalar for the Gather op type and an unsigned
32-bit scalar otherwise. The result pairs the extended parameter list
with the normalized axis written back to the caller. -/
def ProcessAxisAttribute (w : QnnModelWrapper) (node_unit : NodeUnit)
    (node_params : List QnnParamWrapper) (default_axis_value : Int) :
    Except String (List QnnParamWrapper × Int) :=
  match node_unit.inputs.head? with
  | none => .error "Cannot get shape"
  | some input0 =>
    match w.GetOnnxShape input0.name with
    | none => .error "Cannot get shape"
    | some input_shape =>
      let rank := int32_of_size input_shape.length
      let onnx_axis_read := NodeAttrHelper.Get node_unit "axis" default_axis_value
      let onnx_axis :=
        if onnx_axis_read < 0 then onnx_axis_read + rank else onnx_axis_read
      if 0 ≤ onnx_axis ∧ onnx_axis < rank then
        let is_gather_op := node_unit.op_type = "Gather"
        let axis_qnn_scalar : QnnScalar :=
          if is_gather_op then ⟨.INT_32, onnx_axis⟩
          else ⟨.UINT_32, uint32_of_int32 onnx_axis⟩
        .ok (node_params ++ [⟨axis_name, axis_qnn_scalar⟩], onnx_axis)
      else
        .error "QNN requires axis range [0, rank-1]."

/-- ArgMaxMinOpBuilder::ProcessAttributesAndOutputs: normalizes the axis
attribute with default 0, rejects any nonzero select_last_index attribute
with an explicit unsupported-configuration error, builds a BOOL_8
keep_dims parameter that is 0 exactly when the keepdims attribute
(default 1) equals 0 and 1 otherwise, and delegates to ProcessOutputs
with the accumulated parameters. -/
def ArgMaxMinProcessAttributesAndOutputs (w : QnnModelWrapper)
    (node_unit : NodeUnit) (input_names : List String)
    (is_quantized_model : Bool) (do_op_validation : Bool)
    (output_count : Nat) : Except String QnnModelWrapper :=
  match ProcessAxisAttribute w node_unit [] 0 with
  | .error e => .error e
  | .ok (node_params, _) =>
    let select_last_index := NodeAttrHelper.Get node_unit "select_last_index" 0
    if select_last_index ≠ 0 then
      .error "QNN ArgMax/ArgMin only support select_last_index=0."
    else
      let onnx_keepdims := NodeAttrHelper.Get node_unit "keepdims" 1
      let keep_dims_scalar : QnnScalar :=
        ⟨.BOOL_8, if onnx_keepdims = 0 then 0 else 1⟩
      let node_params2 := node_params ++ [⟨keep_dims_name, keep_dims_scalar⟩]
      ProcessOutputs w node_unit input_names node_params2 is_quantized_model
        do_op_validation output_count

/- Concrete fixtures used to evaluate the development on closed inputs:
a small read-only graph context with one initializer w0, one declared
graph output y0 and shapes for the three names, plus node units over it. -/

/-- Fixture: portable-graph context with initializer w0 (raw data [7, 7]),
declared output y0, and rank-4 shapes for x0 and y0. -/
def exGraphInfo : GraphInfo :=
  ⟨[("w0", [7, 7])], ["y0"], [("x0", [1, 2, 3, 4]), ("y0", [1, 2, 3, 4]), ("w0", [2])]⟩

/-- Fixture: a fresh accumulator over exGraphInfo. -/
def exWrapper : QnnModelWrapper := ⟨exGraphInfo, [], []⟩

/-- Fixture: an ArgMax node unit with axis attribute -1 over the rank-4
input x0. -/
def exArgMaxNode : NodeUnit :=
  ⟨"node0", "ArgMax", [⟨"x0", some 1, .absent⟩], [⟨"y0", some 7, .absent⟩],
    [("axis", -1)]⟩

/-- Fixture: an ArgMax node unit additionally carrying
select_last_index = 1. -/
def exArgMaxSelLastNode : NodeUnit :=
  ⟨"node1", "ArgMax", [⟨"x0", some 1, .absent⟩], [⟨"y0", some 7, .absent⟩],
    [("axis", -1), ("select_last_index", 1)]⟩

/-- Fixture: a tensor descriptor for x0 as ProcessInputs would register it
on a non-quantized model. -/
def exTensorX0 : QnnTensorWrapper :=
  ⟨"x0", .APP_WRITE, 0, .FLOAT_32, ⟨0, 0⟩, [1, 2, 3, 4], []⟩

/-- Fixture: an accumulator over exGraphInfo whose registry already holds
x0. -/
def exWrapperWithX0 : QnnModelWrapper := ⟨exGraphInfo, [("x0", exTensorX0)], []⟩

/-- Fixture: a two-input node unit sharing the registered input x0 and
adding the initializer input w0. -/
def exTwoInputNode : NodeUnit :=
  ⟨"node2", "Add", [⟨"x0", some 1, .absent⟩, ⟨"w0", some 1, .absent⟩],
    [⟨"y0", some 1, .absent⟩], []⟩

/- Theorems. -/

/-- Left fold of multiplication reduced modulo m at every step agrees with
the product reduced modulo m. -/
theorem foldl_mul_mod (m : Nat) (l : List Nat) :
    ∀ a : Nat, l.foldl (fun acc d => acc * d % m) (a % m) = a * l.prod % m := by
  induction l with
  | nil => intro a; simp
  | cons d t ih =>
    intro a
    simp only [List.foldl_cons, List.prod_cons]
    rw [Nat.mod_mul_mod, ih (a * d), Nat.mul_assoc]

/-- GetDataSize of a nonempty dimension list is the product of the
dimensions reduced modulo two to the 32. -/
theorem getDataSize_eq_prod_mod (dims : List Nat) (h : dims ≠ []) :
    GetDataSize dims = ((dims.prod % 2 ^ 32 : Nat) : Int) := by
  unfold GetDataSize
  rw [if_neg (by simpa using h)]
  have h1 : (1 : Nat) % 2 ^ 32 = 1 := Nat.mod_eq_of_lt (by norm_num)
  have h2 := foldl_mul_mod (2 ^ 32) dims 1
  rw [h1, Nat.one_mul] at h2
  exact_mod_cast congrArg (fun n : Nat => (n : Int)) h2

/-- C9: GetDataSize returns 0 on an empty dimension list, and on a nonempty
list returns the product of all dimensions computed in 32-bit unsigned
arithmetic, i.e. reduced modulo two to the 32 before widening to the
64-bit signed result; consequently a true element count of at least two
to the 32 is never returned. -/
theorem claim_C9_GetDataSize (dims : List Nat) :
    GetDataSize [] = 0 ∧
    (dims ≠ [] → GetDataSize dims = ((dims.prod % 2 ^ 32 : Nat) : Int)) ∧
    (dims ≠ [] → 2 ^ 32 ≤ dims.prod → GetDataSize dims ≠ (dims.prod : Int)) := by
  refine ⟨rfl, fun h => getDataSize_eq_prod_mod dims h, fun h hp => ?_⟩
  rw [getDataSize_eq_prod_mod dims h]
  have hlt : dims.prod % 2 ^ 32 < 2 ^ 32 := Nat.mod_lt _ (by norm_num)
  intro he
  have : dims.prod % 2 ^ 32 = dims.prod := by exact_mod_cast he
  omega

/-- Witness for C9 at the dimension list [65536, 65536], whose true element
count two to the 32 overflows uint32 to 0. -/
theorem claim_C9_GetDataSize_witness :
    GetDataSize [65536, 65536] =
        ((([65536, 65536] : List Nat).prod % 2 ^ 32 : Nat) : Int) ∧
    GetDataSize [65536, 65536] ≠ ((([65536, 65536] : List Nat).prod : Nat) : Int) :=
  ⟨(claim_C9_GetDataSize [65536, 65536]).2.1 (by decide),
   (claim_C9_GetDataSize [65536, 65536]).2.2 (by decide) (by norm_num)⟩

/-- C2: the quantized and the plain mapping of OnnxDataTypeToQnnDataType
can differ only at the integer element types below 64 bits; they agree at
the 64-bit integer types, at boolean and at the floating types; and the
quantized table maps each sub-64-bit integer type to the corresponding
fixed-point accelerator type. -/
theorem claim_C2_quantized_plain_tables :
    (∀ t : Int,
        OnnxDataTypeToQnnDataType t true ≠ OnnxDataTypeToQnnDataType t false →
        t = TensorProto_DataType_INT8 ∨ t = TensorProto_DataType_INT16 ∨
        t = TensorProto_DataType_INT32 ∨ t = TensorProto_DataType_UINT8 ∨
        t = TensorProto_DataType_UINT16 ∨ t = TensorProto_DataType_UINT32) ∧
    OnnxDataTypeToQnnDataType TensorProto_DataType_INT64 true =
      OnnxDataTypeToQnnDataType TensorProto_DataType_INT64 false ∧
    OnnxDataTypeToQnnDataType TensorProto_DataType_UINT64 true =
      OnnxDataTypeToQnnDataType TensorProto_DataType_UINT64 false ∧
    OnnxDataTypeToQnnDataType TensorProto_DataType_BOOL true =
      OnnxDataTypeToQnnDataType TensorProto_DataType_BOOL false ∧
    OnnxDataTypeToQnnDataType TensorProto_DataType_FLOAT true =
      OnnxDataTypeToQnnDataType TensorProto_DataType_FLOAT false ∧
    OnnxDataTypeToQnnDataType TensorProto_DataType_FLOAT16 true =
      OnnxDataTypeToQnnDataType TensorProto_DataType_FLOAT16 false ∧
    OnnxDataTypeToQnnDataType TensorProto_DataType_INT8 true = some .SFIXED_POINT_8 ∧
    OnnxDataTypeToQnnDataType TensorProto_DataType_INT16 true = some .SFIXED_POINT_16 ∧
    OnnxDataTypeToQnnDataType TensorProto_DataType_INT32 true = some .SFIXED_POINT_32 ∧
    OnnxDataTypeToQnnDataType TensorProto_DataType_UINT8 true = some .UFIXED_POINT_8 ∧
    OnnxDataTypeToQnnDataType TensorProto_DataType_UINT16 true = some .UFIXED_POINT_16 ∧
    OnnxDataTypeToQnnDataType TensorProto_DataType_UINT32 true = some .UFIXED_POINT_32 := by
  refine ⟨?_, by decide, by decide, by decide, by decide, by decide, by decide,
    by decide, by decide, by decide, by decide, by decide⟩
  intro t h
  by_contra hn
  push_neg at hn
  obtain ⟨h3, h5, h6, h2, h4, h12⟩ := hn
  rw [TensorProto_DataType_INT8] at h3
  rw [TensorProto_DataType_INT16] at h5
  rw [TensorProto_DataType_INT32] at h6
  rw [TensorProto_DataType_UINT8] at h2
  rw [TensorProto_DataType_UINT16] at h4
  rw [TensorProto_DataType_UINT32] at h12
  have e3 : (t == (3 : Int)) = false := by simpa using h3
  have e5 : (t == (5 : Int)) = false := by simpa using h5
  have e6 : (t == (6 : Int)) = false := by simpa using h6
  have e2 : (t == (2 : Int)) = false := by simpa using h2
  have e4 : (t == (4 : Int)) = false := by simpa using h4
  have e12 : (t == (12 : Int)) = false := by simpa using h12
  apply h
  simp [OnnxDataTypeToQnnDataType, do_type_mapping, onnx_to_qnn_data_type,
    onnx_to_qnn_data_type_quantized, TensorProto_DataType_INT8,
    TensorProto_DataType_INT16, TensorProto_DataType_INT32,
    TensorProto_DataType_INT64, TensorProto_DataType_UINT8,
    TensorProto_DataType_UINT16, TensorProto_DataType_UINT32,
    TensorProto_DataType_UINT64, TensorProto_DataType_FLOAT16,
    TensorProto_DataType_FLOAT, TensorProto_DataType_BOOL,
    List.lookup, e3, e5, e6, e2, e4, e12]

/-- Witness for C2 at the element type code 3 (INT8), where the two tables
indeed differ. -/
theorem claim_C2_quantized_plain_tables_witness :
    (3 : Int) = TensorProto_DataType_INT8 ∨ (3 : Int) = TensorProto_DataType_INT16 ∨
    (3 : Int) = TensorProto_DataType_INT32 ∨ (3 : Int) = TensorProto_DataType_UINT8 ∨
    (3 : Int) = TensorProto_DataType_UINT16 ∨ (3 : Int) = TensorProto_DataType_UINT32 :=
  claim_C2_quantized_plain_tables.1 3 (by decide)

/-- C7: the default (non-overridden) ProcessAttributesAndOutputs stage
returns success with the accumulator untouched when the resolved
input-name list is empty, and otherwise equals ProcessOutputs invoked
with an empty parameter list. -/
theorem claim_C7_default_attributes_stage (w : QnnModelWrapper)
    (node_unit : NodeUnit) (input_names : List String)
    (is_quantized_model do_op_validation : Bool) (output_count : Nat) :
    (input_names = [] →
      ProcessAttributesAndOutputs w node_unit input_names is_quantized_model
        do_op_validation output_count = .ok w) ∧
    (input_names ≠ [] →
      ProcessAttributesAndOutputs w node_unit input_names is_quantized_model
        do_op_validation output_count =
      ProcessOutputs w node_unit input_names [] is_quantized_model
        do_op_validation output_count) := by
  constructor
  · intro h
    subst h
    rfl
  · intro h
    unfold ProcessAttributesAndOutputs
    rw [if_neg]
    simpa [Nat.lt_one_iff] using h

/-- Witness for C7: on the empty input-name list the default stage returns
the untouched accumulator, and on a singleton list it equals
ProcessOutputs with no parameters. -/
theorem claim_C7_default_attributes_stage_witness :
    ProcessAttributesAndOutputs exWrapper exArgMaxNode [] false false 1 =
      .ok exWrapper ∧
    ProcessAttributesAndOutputs exWrapper exArgMaxNode ["x0"] false false 1 =
      ProcessOutputs exWrapper exArgMaxNode ["x0"] [] false false 1 :=
  ⟨(claim_C7_default_attributes_stage exWrapper exArgMaxNode [] false false 1).1 rfl,
   (claim_C7_default_attributes_stage exWrapper exArgMaxNode ["x0"] false false 1).2
     (by decide)⟩

/-- C8 counterexample: the diagnostic formatters for Qnn_DataType_t and
Qnn_Scalar_t do NOT return normally on every possible enum value — on a
value outside the known enumerator set their default switch case is
ORT_THROW, so the claim that they never fail for all values including
ones outside the known set is false at this concrete input. -/
theorem claim_C8_counterexample :
    formatQnnDataType (QnnDataType.unknown 9999) =
      Except.error "Unknown Qnn Data type" ∧
    formatQnnScalar ⟨QnnDataType.unknown 9999, 0⟩ =
      Except.error "Unknown Qnn Data type" := by
  exact ⟨rfl, rfl⟩

/-- C8 (amended): the formatters for definition, quantization encoding,
tensor type, memory type and parameter type return normally for every
value, printing a fallback marker on values outside the known set; the
scalar and data-type formatters return normally — with a label, an
explicit not-supported marker, or empty output for the FLOAT_16 scalar —
for every value in the known enumerator set, but throw on any value
outside it. -/
theorem claim_C8_formatters (d : QnnDataType) (s : QnnScalar)
    (df : QnnDefinition) (enc : QnnQuantizationEncoding)
    (tt : QnnTensorType) (mt : QnnTensorMemType) (pt : QnnParamType)
    (code : Nat) :
    (d.isKnown = true → ∃ out, formatQnnDataType d = .ok out) ∧
    (s.dataType.isKnown = true → ∃ out, formatQnnScalar s = .ok out) ∧
    (∃ out, formatQnnDefinition df = out) ∧
    formatQnnDefinition (.unknown code) = "Undefined" ∧
    (∃ out, formatQnnQuantizationEncoding enc = out) ∧
    formatQnnQuantizationEncoding (.unknown code) = "Uknown quantization encoding" ∧
    (∃ out, formatQnnTensorType tt = out) ∧
    formatQnnTensorType (.unknown code) = "Unsupported type" ∧
    (∃ out, formatQnnTensorMemType mt = out) ∧
    formatQnnTensorMemType (.unknown code) = "Unsupported mem type" ∧
    (∃ out, formatQnnParamType pt = out) ∧
    formatQnnParamType (.unknown code) = "Unknown type" ∧
    formatQnnDataType (.unknown code) = .error "Unknown Qnn Data type" ∧
    formatQnnScalar ⟨.unknown code, s.value⟩ = .error "Unknown Qnn Data type" := by
  refine ⟨?_, ?_, ⟨_, rfl⟩, rfl, ⟨_, rfl⟩, rfl, ⟨_, rfl⟩, rfl, ⟨_, rfl⟩, rfl,
    ⟨_, rfl⟩, rfl, rfl, rfl⟩
  · intro hd
    cases d <;> simp_all [formatQnnDataType, QnnDataType.isKnown]
  · intro hs
    obtain ⟨dt, v⟩ := s
    cases dt <;> simp_all [formatQnnScalar, QnnDataType.isKnown]

/-- Witness for C8 (amended) at the known enumerator INT_8 and a scalar of
that type. -/
theorem claim_C8_formatters_witness :
    (∃ out, formatQnnDataType QnnDataType.INT_8 = .ok out) ∧
    (∃ out, formatQnnScalar ⟨QnnDataType.INT_8, 42⟩ = .ok out) :=
  ⟨(claim_C8_formatters QnnDataType.INT_8 ⟨QnnDataType.INT_8, 42⟩ .UNDEFINED
      .SCALE_OFFSET .NATIVE .RAW .SCALAR 0).1 (by decide),
   (claim_C8_formatters QnnDataType.INT_8 ⟨QnnDataType.INT_8, 42⟩ .UNDEFINED
      .SCALE_OFFSET .NATIVE .RAW .SCALAR 0).2.1 (by decide)⟩

/-- The int32 cast of a size is below two to the 31. -/
theorem int32_of_size_lt (n : Nat) : int32_of_size n < 2 ^ 31 := by
  unfold int32_of_size
  split
  · omega
  · have h2 : ((n % 2 ^ 32 : Nat) : Int) < 2 ^ 32 := by
      have := Nat.mod_lt n (show 0 < 2 ^ 32 by norm_num)
      exact_mod_cast this
    omega

/-- The int32 cast is the identity on sizes below two to the 31. -/
theorem int32_of_size_of_lt (n : Nat) (h : (n : Int) < 2 ^ 31) :
    int32_of_size n = n := by
  have hlt : n < 2 ^ 32 := by
    have : n < 2 ^ 31 := by exact_mod_cast h
    omega
  unfold int32_of_size
  rw [Nat.mod_eq_of_lt hlt, if_pos]
  exact_mod_cast h

/-- Closed form of ProcessAxisAttribute once the first input and its shape
are resolved. -/
theorem processAxisAttribute_eq (w : QnnModelWrapper) (node_unit : NodeUnit)
    (node_params : List QnnParamWrapper) (d : Int) (input0 : NodeUnitIODef)
    (shape : List Nat) (a na : Int)
    (hhead : node_unit.inputs.head? = some input0)
    (hshape : w.GetOnnxShape input0.name = some shape)
    (ha : NodeAttrHelper.Get node_unit "axis" d = a)
    (hna : (if a < 0 then a + int32_of_size shape.length else a) = na) :
    ProcessAxisAttribute w node_unit node_params d =
      (if 0 ≤ na ∧ na < int32_of_size shape.length then
        .ok (node_params ++ [⟨axis_name,
            if node_unit.op_type = "Gather" then ⟨.INT_32, na⟩
            else ⟨.UINT_32, uint32_of_int32 na⟩⟩], na)
      else .error "QNN requires axis range [0, rank-1].") := by
  unfold ProcessAxisAttribute
  rw [hhead]
  dsimp only
  rw [hshape]
  dsimp only
  simp only [ha, hna]

/-- C1: for a first input of rank R at least 1 (R int32 representable) and
an effective signed axis attribute value a (the attribute value when
present, else the caller-supplied default), ProcessAxisAttribute adds R
to a exactly when a is negative, succeeds for every a in [-R, R-1] with a
normalized axis lying in [0, R-1] that is also written back to the
caller, and fails the build for every a outside [-R, R-1]. -/
theorem claim_C1_axis_normalization (w : QnnModelWrapper)
    (node_unit : NodeUnit) (node_params : List QnnParamWrapper) (d a : Int)
    (input0 : NodeUnitIODef) (shape : List Nat) (R : Nat)
    (hhead : node_unit.inputs.head? = some input0)
    (hshape : w.GetOnnxShape input0.name = some shape)
    (hR : shape.length = R) (hR1 : 1 ≤ R) (hR31 : (R : Int) < 2 ^ 31)
    (ha : NodeAttrHelper.Get node_unit "axis" d = a) :
    (-(R : Int) ≤ a ∧ a < (R : Int) →
      ∃ ps, ProcessAxisAttribute w node_unit node_params d =
          .ok (ps, if a < 0 then a + (R : Int) else a) ∧
        0 ≤ (if a < 0 then a + (R : Int) else a) ∧
        (if a < 0 then a + (R : Int) else a) ≤ (R : Int) - 1) ∧
    (a < -(R : Int) ∨ (R : Int) ≤ a →
      ProcessAxisAttribute w node_unit node_params d =
        .error "QNN requires axis range [0, rank-1].") := by
  have heq := processAxisAttribute_eq w node_unit node_params d input0 shape a
      (if a < 0 then a + int32_of_size shape.length else a) hhead hshape ha rfl
  rw [hR, int32_of_size_of_lt R hR31] at heq
  constructor
  · rintro ⟨hlo, hhi⟩
    have hcond : 0 ≤ (if a < 0 then a + (R : Int) else a) ∧
        (if a < 0 then a + (R : Int) else a) < (R : Int) := by
      constructor <;> · split <;> omega
    rw [heq, if_pos hcond]
    exact ⟨_, rfl, hcond.1, by have := hcond.2; omega⟩
  · intro hout
    rw [heq, if_neg]
    rintro ⟨h1, h2⟩
    rcases hout with h | h <;> · revert h1 h2; split <;> omega

/-- Witness for C1: axis -1 on the rank-4 input of the ArgMax fixture
normalizes to 3. -/
theorem claim_C1_axis_normalization_witness :
    ∃ ps, ProcessAxisAttribute exWrapper exArgMaxNode [] 0 = .ok (ps, 3) := by
  obtain ⟨ps, h1, _, _⟩ := (claim_C1_axis_normalization exWrapper exArgMaxNode
      [] 0 (-1) ⟨"x0", some 1, .absent⟩ [1, 2, 3, 4] 4 rfl (by decide) rfl
      (by norm_num) (by norm_num) (by decide)).1 (by norm_num)
  refine ⟨ps, ?_⟩
  simpa using h1

/-- C5: whenever ProcessAxisAttribute succeeds, the parameter it appends is
named axis and carries a signed 32-bit scalar holding the normalized axis
when the op type is Gather, and an unsigned 32-bit scalar holding the
very same normalized value for every other op type; the normalized value
is never negative. -/
theorem claim_C5_axis_param (w : QnnModelWrapper) (node_unit : NodeUnit)
    (node_params : List QnnParamWrapper) (d : Int)
    (ps : List QnnParamWrapper) (ax : Int)
    (hok : ProcessAxisAttribute w node_unit node_params d = .ok (ps, ax)) :
    (node_unit.op_type = "Gather" →
      ps = node_params ++ [⟨axis_name, ⟨.INT_32, ax⟩⟩]) ∧
    (node_unit.op_type ≠ "Gather" →
      ps = node_params ++ [⟨axis_name, ⟨.UINT_32, ax⟩⟩]) ∧
    0 ≤ ax := by
  cases hh : node_unit.inputs.head? with
  | none =>
    unfold ProcessAxisAttribute at hok
    rw [hh] at hok
    dsimp only at hok
    exact Except.noConfusion hok
  | some input0 =>
    cases hs : w.GetOnnxShape input0.name with
    | none =>
      unfold ProcessAxisAttribute at hok
      rw [hh] at hok
      dsimp only at hok
      rw [hs] at hok
      dsimp only at hok
      exact Except.noConfusion hok
    | some shape =>
      rw [processAxisAttribute_eq w node_unit node_params d input0 shape
          (NodeAttrHelper.Get node_unit "axis" d)
          (if NodeAttrHelper.Get node_unit "axis" d < 0 then
            NodeAttrHelper.Get node_unit "axis" d + int32_of_size shape.length
          else NodeAttrHelper.Get node_unit "axis" d) hh hs rfl rfl] at hok
      set na := (if NodeAttrHelper.Get node_unit "axis" d < 0 then
            NodeAttrHelper.Get node_unit "axis" d + int32_of_size shape.length
          else NodeAttrHelper.Get node_unit "axis" d) with hna
      by_cases hcond : 0 ≤ na ∧ na < int32_of_size shape.length
      · rw [if_pos hcond] at hok
        simp only [Except.ok.injEq, Prod.mk.injEq] at hok
        obtain ⟨hps, hax⟩ := hok
        have hax0 : 0 ≤ ax := hax ▸ hcond.1
        have haxlt : ax < 2 ^ 32 := by
          have h31 := int32_of_size_lt shape.length
          have h2 := hcond.2
          omega
        have hcast : uint32_of_int32 ax = ax :=
          Int.emod_eq_of_lt hax0 haxlt
        refine ⟨fun hg => ?_, fun hg => ?_, hax0⟩
        · rw [← hps, if_pos hg, hax]
        · rw [← hps, if_neg hg, hax, hcast]
      · rw [if_neg hcond] at hok
        exact Except.noConfusion hok

/-- Witness for C5 at the ArgMax fixture (a non-Gather op type): the
appended parameter is the unsigned 32-bit axis scalar with value 3. -/
theorem claim_C5_axis_param_witness :
    ([⟨axis_name, ⟨.UINT_32, 3⟩⟩] : List QnnParamWrapper) =
      [] ++ [⟨axis_name, ⟨.UINT_32, 3⟩⟩] ∧ (0 : Int) ≤ 3 :=
  ⟨(claim_C5_axis_param exWrapper exArgMaxNode [] 0
      [⟨axis_name, ⟨.UINT_32, 3⟩⟩] 3 rfl).2.1 (by decide),
   (claim_C5_axis_param exWrapper exArgMaxNode [] 0
      [⟨axis_name, ⟨.UINT_32, 3⟩⟩] 3 rfl).2.2⟩

/-- C4: for an ArgMax/ArgMin node unit whose select_last_index attribute
(default 0) is nonzero, translation always fails, and when the axis stage
succeeds it fails with exactly the explicit unsupported-configuration
error naming the restriction; when the attribute is 0 or absent and the
axis stage succeeds, translation proceeds to ProcessOutputs. -/
theorem claim_C4_select_last_index (w : QnnModelWrapper)
    (node_unit : NodeUnit) (input_names : List String)
    (is_quantized_model do_op_validation : Bool) (output_count : Nat)
    (s : Int)
    (hs : NodeAttrHelper.Get node_unit "select_last_index" 0 = s) :
    (s ≠ 0 → ∃ e, ArgMaxMinProcessAttributesAndOutputs w node_unit
        input_names is_quantized_model do_op_validation output_count =
      .error e) ∧
    (∀ ps ax, ProcessAxisAttribute w node_unit [] 0 = .ok (ps, ax) →
      (s ≠ 0 → ArgMaxMinProcessAttributesAndOutputs w node_unit input_names
          is_quantized_model do_op_validation output_count =
        .error "QNN ArgMax/ArgMin only support select_last_index=0.") ∧
      (s = 0 → ∃ params, ArgMaxMinProcessAttributesAndOutputs w node_unit
          input_names is_quantized_model do_op_validation output_count =
        ProcessOutputs w node_unit input_names params is_quantized_model
          do_op_validation output_count)) := by
  unfold ArgMaxMinProcessAttributesAndOutputs
  cases hax : ProcessAxisAttribute w node_unit [] 0 with
  | error e =>
    dsimp only
    exact ⟨fun _ => ⟨e, rfl⟩, fun ps ax hok => Except.noConfusion hok⟩
  | ok pa =>
    obtain ⟨ps0, ax0⟩ := pa
    dsimp only
    rw [hs]
    by_cases h0 : s = 0
    · rw [if_neg (fun hc => hc h0)]
      exact ⟨fun hne => absurd h0 hne,
        fun ps ax _ => ⟨fun hne => absurd h0 hne, fun _ => ⟨_, rfl⟩⟩⟩
    · rw [if_pos h0]
      exact ⟨fun _ => ⟨_, rfl⟩,
        fun ps ax _ => ⟨fun _ => rfl, fun heq => absurd heq h0⟩⟩

/-- Witness for C4 at the ArgMax fixture carrying select_last_index = 1:
translation fails. -/
theorem claim_C4_select_last_index_witness :
    ∃ e, ArgMaxMinProcessAttributesAndOutputs exWrapper exArgMaxSelLastNode
        ["x0"] false false 1 = .error e :=
  (claim_C4_select_last_index exWrapper exArgMaxSelLastNode ["x0"] false false
      1 1 (by decide)).1 (by norm_num)

/-- C10: for an ArgMax/ArgMin node unit that passes axis normalization and
the select_last_index check, the keep_dims parameter attached to the
operator is a BOOL_8 scalar that equals 0 exactly when the keepdims
attribute value k (default 1) equals 0, equals 1 for every nonzero k, and
equals 1 when the attribute is absent. -/
theorem claim_C10_keep_dims (w : QnnModelWrapper) (node_unit : NodeUnit)
    (input_names : List String) (is_quantized_model do_op_validation : Bool)
    (output_count : Nat) (ps : List QnnParamWrapper) (ax k : Int)
    (hax : ProcessAxisAttribute w node_unit [] 0 = .ok (ps, ax))
    (hsel : NodeAttrHelper.Get node_unit "select_last_index" 0 = 0)
    (hk : NodeAttrHelper.Get node_unit "keepdims" 1 = k) :
    ∃ kd : QnnScalar,
      ArgMaxMinProcessAttributesAndOutputs w node_unit input_names
          is_quantized_model do_op_validation output_count =
        ProcessOutputs w node_unit input_names (ps ++ [⟨keep_dims_name, kd⟩])
          is_quantized_model do_op_validation output_count ∧
      kd.dataType = .BOOL_8 ∧
      (kd.value = 0 ↔ k = 0) ∧
      (k ≠ 0 → kd.value = 1) ∧
      (node_unit.attributes.lookup "keepdims" = none → kd.value = 1) := by
  refine ⟨⟨.BOOL_8, if k = 0 then 0 else 1⟩, ?_, rfl,
    by by_cases h : k = 0 <;> simp [h], fun h => by simp [h], fun habs => ?_⟩
  · unfold ArgMaxMinProcessAttributesAndOutputs
    rw [hax]
    dsimp only
    rw [hsel, if_neg (fun hc : (0 : Int) ≠ 0 => hc rfl), hk]
  · have hk1 : k = 1 := by
      rw [← hk]
      unfold NodeAttrHelper.Get
      rw [habs]
    simp [hk1]

/-- Witness for C10 at the ArgMax fixture, whose keepdims attribute is
absent (default 1): the attached keep_dims scalar is a BOOL_8 value 1. -/
theorem claim_C10_keep_dims_witness :
    ∃ kd : QnnScalar,
      ArgMaxMinProcessAttributesAndOutputs exWrapper exArgMaxNode ["x0"]
          false false 1 =
        ProcessOutputs exWrapper exArgMaxNode ["x0"]
          ([⟨axis_name, ⟨.UINT_32, 3⟩⟩] ++ [⟨keep_dims_name, kd⟩])
          false false 1 ∧
      kd.dataType = .BOOL_8 ∧
      (kd.value = 0 ↔ (1 : Int) = 0) ∧
      ((1 : Int) ≠ 0 → kd.value = 1) ∧
      (exArgMaxNode.attributes.lookup "keepdims" = none → kd.value = 1) :=
  claim_C10_keep_dims exWrapper exArgMaxNode ["x0"] false false 1
    [⟨axis_name, ⟨.UINT_32, 3⟩⟩] 3 1 rfl (by decide) (by decide)

/-- Association lookup hits an equal key at the head. -/
theorem lookup_cons_self {β : Type} (k : String) (v : β)
    (l : List (String × β)) : List.lookup k ((k, v) :: l) = some v := by
  simp [List.lookup]

/-- Association lookup skips a distinct key at the head. -/
theorem lookup_cons_of_ne {β : Type} (a k : String) (v : β)
    (l : List (String × β)) (h : a ≠ k) :
    List.lookup a ((k, v) :: l) = List.lookup a l := by
  have e : (a == k) = false := by simpa using h
  simp [List.lookup, e]

/-- A name the registry does not contain looks up to none. -/
theorem not_contains_lookup_none (w : QnnModelWrapper) (name : String)
    (h : w.QnnContainsTensor name = false) :
    w.model_tensors_map.lookup name = none := by
  unfold QnnModelWrapper.QnnContainsTensor at h
  cases hl : w.model_tensors_map.lookup name with
  | none => rfl
  | some v => rw [hl] at h; simp at h

/-- AddTensor on a name not yet registered inserts the descriptor at the
front of the registry and succeeds. -/
theorem addTensor_not_contains (w : QnnModelWrapper) (name : String)
    (tw : QnnTensorWrapper) (h : w.QnnContainsTensor name = false) :
    w.AddTensor name tw =
      (true, { w with model_tensors_map := (name, tw) :: w.model_tensors_map }) := by
  unfold QnnModelWrapper.AddTensor
  unfold QnnModelWrapper.QnnContainsTensor at h
  rw [if_neg (by simp [h])]

/-- AddNode in persisting mode with all referenced inputs registered
appends the operator. -/
theorem addNode_build (w : QnnModelWrapper) (op : QnnOpWrapper)
    (hall : (op.input_names.all fun n => w.QnnContainsTensor n) = true) :
    w.AddNode op false = (true, { w with qnn_ops := w.qnn_ops ++ [op] }) := by
  unfold QnnModelWrapper.AddNode
  rw [if_pos hall, if_neg (by simp)]

/-- AddNode fails when some referenced input is not registered. -/
theorem addNode_not_contained (w : QnnModelWrapper) (op : QnnOpWrapper)
    (v : Bool)
    (hall : (op.input_names.all fun n => w.QnnContainsTensor n) = false) :
    w.AddNode op v = (false, w) := by
  unfold QnnModelWrapper.AddNode
  rw [if_neg (by simp [hall])]

/-- Master induction lemma over the ProcessInputs loop: a successful run
preserves the read-only graph context, only extends the ordered
input-name list, never removes or overwrites a registered tensor, and
every tensor registered during the run carries its own name and has role
STATIC exactly on initializer inputs and APP_WRITE otherwise. -/
theorem processInputsLoop_spec (q : Bool) :
    ∀ (ins : List NodeUnitIODef) (w : QnnModelWrapper) (names : List String)
      (w2 : QnnModelWrapper) (names2 : List String),
      processInputsLoop q w names ins = .ok (w2, names2) →
      w2.graph_info = w.graph_info ∧
      (∀ x ∈ names, x ∈ names2) ∧
      (∀ nm tw, w.model_tensors_map.lookup nm = some tw →
        w2.model_tensors_map.lookup nm = some tw) ∧
      (∀ nm tw, w2.model_tensors_map.lookup nm = some tw →
        w.model_tensors_map.lookup nm = some tw ∨
        (tw.name = nm ∧ tw.tensor_type =
          (if w.IsInitializerInput nm then QnnTensorType.STATIC
          else QnnTensorType.APP_WRITE))) := by
  intro ins
  induction ins with
  | nil =>
    intro w names w2 names2 h
    unfold processInputsLoop at h
    simp only [Except.ok.injEq, Prod.mk.injEq] at h
    obtain ⟨hw, hn⟩ := h
    subst hw
    subst hn
    exact ⟨rfl, fun x hx => hx, fun nm tw ht => ht, fun nm tw ht => Or.inl ht⟩
  | cons input rest ih =>
    intro w names w2 names2 h
    unfold processInputsLoop at h
    by_cases hc : w.QnnContainsTensor input.name = true
    · rw [if_pos hc] at h
      obtain ⟨hgi, hmono, hfwd, hbwd⟩ := ih w (names ++ [input.name]) w2 names2 h
      exact ⟨hgi, fun x hx => hmono x (List.mem_append_left _ hx), hfwd, hbwd⟩
    · rw [if_neg hc] at h
      have hcf : w.QnnContainsTensor input.name = false := by
        simpa using hc
      cases hdt : GetQnnDataType q input.type_proto with
      | error e =>
        rw [hdt] at h
        dsimp only at h
        exact Except.noConfusion h
      | ok qdt =>
        rw [hdt] at h
        dsimp only at h
        cases hsh : w.GetOnnxShape input.name with
        | none =>
          rw [hsh] at h
          dsimp only at h
          exact Except.noConfusion h
        | some shape =>
          rw [hsh] at h
          dsimp only at h
          cases hqp : ProcessQuantizationParameter input.quant_param with
          | none =>
            rw [hqp] at h
            dsimp only at h
            exact Except.noConfusion h
          | some qp =>
            rw [hqp] at h
            dsimp only at h
            rw [addTensor_not_contains w input.name _ hcf] at h
            dsimp only at h
            obtain ⟨hgi, hmono, hfwd, hbwd⟩ :=
              ih _ (names ++ [input.name]) w2 names2 h
            have hnone : w.model_tensors_map.lookup input.name = none :=
              not_contains_lookup_none w input.name hcf
            refine ⟨hgi, fun x hx => hmono x (List.mem_append_left _ hx),
              fun nm tw ht => ?_, fun nm tw ht => ?_⟩
            · have hne : nm ≠ input.name := by
                intro he
                rw [he, hnone] at ht
                exact Option.noConfusion ht
              exact hfwd nm tw
                ((lookup_cons_of_ne nm input.name _ _ hne).symm ▸ ht)
            · rcases hbwd nm tw ht with hin | hnew
              · by_cases hne : nm = input.name
                · subst hne
                  rw [lookup_cons_self] at hin
                  refine Or.inr ⟨?_, ?_⟩
                  · exact (Option.some.injEq _ _ ▸ hin : _ = tw) ▸ rfl
                  · cases hin
                    rfl
                · rw [lookup_cons_of_ne nm input.name _ _ hne] at hin
                  exact Or.inl hin
              · exact Or.inr hnew

/-- Every output descriptor a successful ProcessOutputs loop run builds
carries its own output name and has role APP_READ exactly on declared
graph outputs and NATIVE otherwise. -/
theorem processOutputsLoop_types (w : QnnModelWrapper) (q : Bool) :
    ∀ (outs : List NodeUnitIODef) (lst : List QnnTensorWrapper),
      processOutputsLoop w q outs = .ok lst →
      ∀ tw ∈ lst, tw.tensor_type =
        (if w.IsGraphOutput tw.name then QnnTensorType.APP_READ
        else QnnTensorType.NATIVE) := by
  intro outs
  induction outs with
  | nil =>
    intro lst h tw htw
    unfold processOutputsLoop at h
    simp only [Except.ok.injEq] at h
    subst h
    cases htw
  | cons o rest ih =>
    intro lst h tw htw
    unfold processOutputsLoop at h
    cases hdt : GetQnnDataType q o.type_proto with
    | error e =>
      rw [hdt] at h
      dsimp only at h
      exact Except.noConfusion h
    | ok qdt =>
      rw [hdt] at h
      dsimp only at h
      cases hqp : ProcessQuantizationParameter o.quant_param with
      | none =>
        rw [hqp] at h
        dsimp only at h
        exact Except.noConfusion h
      | some qp =>
        rw [hqp] at h
        dsimp only at h
        cases hsh : w.GetOnnxShape o.name with
        | none =>
          rw [hsh] at h
          dsimp only at h
          exact Except.noConfusion h
        | some shape =>
          rw [hsh] at h
          dsimp only at h
          cases hrest : processOutputsLoop w q rest with
          | error e =>
            rw [hrest] at h
            dsimp only at h
            exact Except.noConfusion h
          | ok lst0 =>
            rw [hrest] at h
            dsimp only at h
            simp only [Except.ok.injEq] at h
            subst h
            rcases List.mem_cons.mp htw with h1 | h1
            · subst h1
              rfl
            · exact ih lst0 hrest tw h1

/-- A successful persisting ProcessOutputs run appends exactly one operator
descriptor holding the loop-built output descriptors. -/
theorem processOutputs_appends (w : QnnModelWrapper) (node_unit : NodeUnit)
    (input_names : List String) (node_params : List QnnParamWrapper)
    (q : Bool) (oc : Nat) (w2 : QnnModelWrapper)
    (hok : ProcessOutputs w node_unit input_names node_params q false oc =
      .ok w2) :
    ∃ qnn_outputs,
      processOutputsLoop w q (node_unit.outputs.take oc) = .ok qnn_outputs ∧
      w2.qnn_ops = w.qnn_ops ++
        [⟨GetNodeName node_unit, package_name, GetQnnOpType node_unit.op_type,
          node_params, input_names, qnn_outputs⟩] := by
  unfold ProcessOutputs at hok
  cases hl : processOutputsLoop w q (node_unit.outputs.take oc) with
  | error e =>
    rw [hl] at hok
    dsimp only at hok
    exact Except.noConfusion hok
  | ok lst =>
    rw [hl] at hok
    dsimp only at hok
    by_cases hall : (List.all input_names fun n => w.QnnContainsTensor n) = true
    · rw [addNode_build w _ hall] at hok
      dsimp only at hok
      simp only [Except.ok.injEq] at hok
      subst hok
      exact ⟨lst, rfl, rfl⟩
    · rw [addNode_not_contained w _ false (by simpa using hall)] at hok
      dsimp only at hok
      exact Except.noConfusion hok

/-- C3: in the shared pipeline, every output tensor built by a successful
persisting ProcessOutputs run has role APP_READ exactly when its name is
a declared graph output and NATIVE otherwise, and every tensor newly
registered by a successful ProcessInputs run has role STATIC exactly when
the name denotes a portable-graph initializer and APP_WRITE otherwise. -/
theorem claim_C3_role_assignment (w : QnnModelWrapper) (node_unit : NodeUnit)
    (is_quantized_model do_op_validation : Bool) (output_count : Nat) :
    (∀ input_names node_params w2,
      ProcessOutputs w node_unit input_names node_params is_quantized_model
          false output_count = .ok w2 →
      ∃ op, w2.qnn_ops = w.qnn_ops ++ [op] ∧
        ∀ tw ∈ op.output_tensors,
          (tw.tensor_type = QnnTensorType.APP_READ ↔
            w.IsGraphOutput tw.name = true) ∧
          (w.IsGraphOutput tw.name = false →
            tw.tensor_type = QnnTensorType.NATIVE)) ∧
    (∀ w2 names2,
      ProcessInputs w node_unit is_quantized_model do_op_validation =
          .ok (w2, names2) →
      ∀ nm tw, w2.model_tensors_map.lookup nm = some tw →
        w.model_tensors_map.lookup nm = some tw ∨
        ((tw.tensor_type = QnnTensorType.STATIC ↔
            w.IsInitializerInput nm = true) ∧
          (w.IsInitializerInput nm = false →
            tw.tensor_type = QnnTensorType.APP_WRITE))) := by
  constructor
  · intro input_names node_params w2 hok
    obtain ⟨qnn_outputs, hloop, hops⟩ :=
      processOutputs_appends w node_unit input_names node_params
        is_quantized_model output_count w2 hok
    refine ⟨_, hops, fun tw htw => ?_⟩
    have htype := processOutputsLoop_types w is_quantized_model
      (node_unit.outputs.take output_count) qnn_outputs hloop tw htw
    cases hg : w.IsGraphOutput tw.name with
    | true =>
      rw [hg, if_pos rfl] at htype
      exact ⟨⟨fun _ => rfl, fun _ => htype⟩, fun hfalse => Bool.noConfusion hfalse⟩
    | false =>
      rw [hg] at htype
      rw [if_neg (by simp)] at htype
      refine ⟨?_, fun _ => htype⟩
      constructor
      · intro hread
        rw [htype] at hread
        exact QnnTensorType.noConfusion hread
      · intro htrue
        exact Bool.noConfusion htrue
  · intro w2 names2 hok nm tw ht
    unfold ProcessInputs at hok
    obtain ⟨hgi, hmono, hfwd, hbwd⟩ :=
      processInputsLoop_spec is_quantized_model node_unit.inputs w [] w2
        names2 hok
    rcases hbwd nm tw ht with hin | ⟨hname, htype⟩
    · exact Or.inl hin
    · refine Or.inr ?_
      cases hi : w.IsInitializerInput nm with
      | true =>
        rw [hi, if_pos rfl] at htype
        exact ⟨⟨fun _ => rfl, fun _ => htype⟩, fun hfalse => Bool.noConfusion hfalse⟩
      | false =>
        rw [hi] at htype
        rw [if_neg (by simp)] at htype
        refine ⟨⟨?_, fun htrue => Bool.noConfusion htrue⟩, fun _ => htype⟩
        intro hstatic
        rw [htype] at hstatic
        exact QnnTensorType.noConfusion hstatic

/-- Witness for C3: running ProcessInputs of the two-input fixture node on
the accumulator that already holds x0 registers the initializer input w0;
the registered descriptor for w0 has role STATIC. -/
theorem claim_C3_role_assignment_witness :
    (exWrapperWithX0.model_tensors_map.lookup "w0" =
      some ⟨"w0", .STATIC, 0, .FLOAT_32, ⟨0, 0⟩, [2], [7, 7]⟩) ∨
    ((QnnTensorType.STATIC = QnnTensorType.STATIC ↔
        exWrapperWithX0.IsInitializerInput "w0" = true) ∧
      (exWrapperWithX0.IsInitializerInput "w0" = false →
        QnnTensorType.STATIC = QnnTensorType.APP_WRITE)) :=
  (claim_C3_role_assignment exWrapperWithX0 exTwoInputNode false false 1).2
    ⟨exGraphInfo,
      [("w0", ⟨"w0", .STATIC, 0, .FLOAT_32, ⟨0, 0⟩, [2], [7, 7]⟩),
        ("x0", exTensorX0)], []⟩
    ["x0", "w0"] rfl "w0" ⟨"w0", .STATIC, 0, .FLOAT_32, ⟨0, 0⟩, [2], [7, 7]⟩
    (by decide)

/-- C6: when a node-unit input name is already present in the tensor
registry, the ProcessInputs loop step for it registers nothing — it
reduces to the rest of the loop with only the ordered input-name list
extended by that name — and on a successful run the registry entry of
that name is observably unchanged while the name does appear in the
resolved input-name list. -/
theorem claim_C6_shared_input (q : Bool) (w : QnnModelWrapper)
    (names : List String) (input : NodeUnitIODef)
    (rest : List NodeUnitIODef)
    (hpresent : w.QnnContainsTensor input.name = true) :
    processInputsLoop q w names (input :: rest) =
      processInputsLoop q w (names ++ [input.name]) rest ∧
    (∀ w2 names2,
      processInputsLoop q w names (input :: rest) = .ok (w2, names2) →
      w2.model_tensors_map.lookup input.name =
        w.model_tensors_map.lookup input.name ∧
      input.name ∈ names2) := by
  have hstep : processInputsLoop q w names (input :: rest) =
      processInputsLoop q w (names ++ [input.name]) rest := by
    conv_lhs => rw [processInputsLoop.eq_def]
    dsimp only
    rw [if_pos hpresent]
  refine ⟨hstep, fun w2 names2 h => ?_⟩
  rw [hstep] at h
  obtain ⟨hgi, hmono, hfwd, hbwd⟩ :=
    processInputsLoop_spec q rest w (names ++ [input.name]) w2 names2 h
  obtain ⟨t, ht⟩ : ∃ t, w.model_tensors_map.lookup input.name = some t := by
    unfold QnnModelWrapper.QnnContainsTensor at hpresent
    exact Option.isSome_iff_exists.mp hpresent
  exact ⟨(hfwd input.name t ht).trans ht.symm,
    hmono input.name (List.mem_append_right _ (List.mem_singleton.mpr rfl))⟩

/-- Witness for C6: with x0 already registered, the loop over the two-input
fixture node leaves the x0 registry entry unchanged and still lists x0
among the resolved input names. -/
theorem claim_C6_shared_input_witness :
    (⟨exGraphInfo,
        [("w0", ⟨"w0", .STATIC, 0, .FLOAT_32, ⟨0, 0⟩, [2], [7, 7]⟩),
          ("x0", exTensorX0)], []⟩ : QnnModelWrapper).model_tensors_map.lookup
        "x0" = exWrapperWithX0.model_tensors_map.lookup "x0" ∧
    "x0" ∈ ["x0", "w0"] :=
  (claim_C6_shared_input false exWrapperWithX0 [] ⟨"x0", some 1, .absent⟩
      [⟨"w0", some 1, .absent⟩] (by decide)).2
    ⟨exGraphInfo,
      [("w0", ⟨"w0", .STATIC, 0, .FLOAT_32, ⟨0, 0⟩, [2], [7, 7]⟩),
        ("x0", exTensorX0)], []⟩
    ["x0", "w0"] rfl

end OnnxRuntimeQnn
